import Mathlib

/-!
Shallow embedding of the order-to-courier assignment engine of the
`final_meal_mover` repository (files `integrated_one.py`, `order_assign.py`,
`timepass.py`, `main_api.py`).

Database rows become Lean structures, SQL queries become list operations,
and the per-order processing pipelines become pure functions over a database
snapshot.  External collaborators (the geocoding provider, the routing
provider, shapely geometry predicates, the simulated courier responses) are
modelled as explicit inputs.  Money-like floats are modelled as rationals.
-/

namespace MealMover

/-- Python `x or d` on a rational: `0` is falsy, so a stored `0` is replaced
by the default just like a missing value.  Used by `calculate_rider_score`. -/
def pyOrQ (v : Option ℚ) (d : ℚ) : ℚ :=
  match v with
  | none => d
  | some x => if x = 0 then d else x

/-- Python `x or d` on an integer column that may be NULL. -/
def pyOrZ (v : Option ℤ) (d : ℤ) : ℤ :=
  match v with
  | none => d
  | some x => if x = 0 then d else x

/-- Row of `tbl_rider`. -/
structure Rider where
  id : Nat
  title : String
  status : Nat
  rstatus : Nat
deriving DecidableEq

/-- Row of `tbl_rider_availability`. -/
structure RiderAvailability where
  rider_id : Nat
  current_lat : ℚ
  current_lng : ℚ
  is_online : Bool
  is_available : Bool
  active_order_count : Nat
  max_capacity : Nat
deriving DecidableEq

/-- Row of `tbl_rider_performance` as read by the rider queries. -/
structure RiderPerformance where
  rider_id : Nat
  acceptance_rate : ℚ
  avg_delivery_time : ℚ
  rejection_count : Nat
deriving DecidableEq

/-- Row of `tbl_rider_routes` as used by `get_riders_by_route`. -/
structure RiderRoute where
  rider_id : Nat
  zone_id : Nat
deriving DecidableEq

/-- Row of an order table (`tbl_normal_order` / `tbl_subscribe_order`),
restricted to the columns the assignment engine writes or reads. -/
structure OrderRow where
  id : Nat
  uid : Nat
  rid : Option Nat
  order_status : Nat
deriving DecidableEq

/-- Row of `tbl_rider_assignment` (integrated_one variant). -/
structure AssignmentRow where
  order_id : Nat
  rider_id : Nat
  score : ℚ
deriving DecidableEq

/-- Row of `tbl_delivery` (integrated_one variant). -/
structure DeliveryRow where
  order_id : Nat
  rider_id : Nat
  zone_id : Nat
deriving DecidableEq

/-- Database snapshot used by the integrated_one / timepass engines. -/
structure DB where
  riders : List Rider
  availability : List RiderAvailability
  performance : List RiderPerformance
  rider_routes : List RiderRoute
  orders : List OrderRow
  assignments : List AssignmentRow
  deliveries : List DeliveryRow
deriving DecidableEq

/-- One result row of the rider query
(`tbl_rider JOIN tbl_rider_availability LEFT JOIN tbl_rider_performance`).
The performance columns are `Option` because the LEFT JOIN yields NULLs when
no performance row exists; integrated_one COALESCEs them in SQL (so there they
arrive as `some`), timepass does not. -/
structure RiderView where
  id : Nat
  title : String
  status : Nat
  current_lat : ℚ
  current_lng : ℚ
  is_available : Bool
  active_order_count : Nat
  max_capacity : Nat
  acceptance_rate : Option ℚ
  avg_delivery_time : Option ℚ
  rejection_count : Option ℚ
deriving DecidableEq

/-- SQL LEFT JOIN of one rider against `tbl_rider_performance`: one row per
matching performance row, or a single all-NULL row when none matches. -/
def leftJoinPerf (db : DB) (rid : Nat) : List (Option RiderPerformance) :=
  match db.performance.filter (fun p => p.rider_id == rid) with
  | [] => [none]
  | ps => ps.map some

/-- The shared WHERE clause of the rider queries:
`r.status = 1 AND ra.is_available = 1 AND ra.active_order_count < ra.max_capacity`. -/
def availablePred (v : RiderView) : Bool :=
  v.status == 1 && v.is_available && decide (v.active_order_count < v.max_capacity)

/-- `calculate_rider_score` (identical in integrated_one and timepass):
`0.5 * acceptance_rate + 0.3 * (1/(dist_km+1)) + 0.2 * (1/(avg_delivery_time+1))`
with Python `or` defaults (`acceptance_rate or 0`, `avg_delivery_time or 30`)
and `dist_km = 1e6` when the distance is `None`.  The decimal weights
0.5 / 0.3 / 0.2 are written as rationals. -/
def calculate_rider_score (r : RiderView) (dist_km : Option ℚ) : ℚ :=
  let acceptance_rate := pyOrQ r.acceptance_rate 0
  let avg_delivery_time := pyOrQ r.avg_delivery_time 30
  let d := dist_km.getD 1000000
  (1 / 2 : ℚ) * acceptance_rate + (3 / 10 : ℚ) * (1 / (d + 1)) +
    (1 / 5 : ℚ) * (1 / (avg_delivery_time + 1))

/-- The scoring formula exactly as the specification words it, with the
spec's own parameters.  Used to compare the code's score against the spec. -/
def scoreSpec (acceptance_rate avg_delivery_time distance_km : ℚ) : ℚ :=
  (1 / 2 : ℚ) * acceptance_rate + (3 / 10 : ℚ) * (1 / (distance_km + 1)) +
    (1 / 5 : ℚ) * (1 / (avg_delivery_time + 1))

/-- The zone metadata consumed by ETA validation
(`tbl_delivery_zones.delivery_time_min/_max`, both nullable). -/
structure ZoneMeta where
  delivery_time_min : Option ℤ
  delivery_time_max : Option ℤ
deriving DecidableEq

/-- Rejection reasons recorded by the candidate evaluation loops. -/
inductive Reason where
  | distance_eta_unavailable
  | distance_parse_error
  | eta_invalid
  | low_score
deriving DecidableEq

/-- Outcome of the external routing call for one candidate, after text
parsing: `none` models `get_distance_and_time` returning `(None, None)`
(provider failure); otherwise the parsed distance in km (`none` when the
distance text does not parse) and the leading integer of the ETA text
(`none` when the text has no digits). -/
abbrev RouteInfo := Option (Option ℚ × Option ℤ)

/-- A candidate as seen by the evaluation loop: the queried rider row
together with the routing result for this order. -/
structure Cand where
  rider : RiderView
  routing : RouteInfo
deriving DecidableEq

/-- State of the best-candidate scan: `best_score`, `nearest_rider`, and the
accumulated `rejected_riders` pairs. -/
structure SelState where
  best : ℚ
  inc : Option RiderView
  rej : List (Nat × Reason)
deriving DecidableEq

/-- `best_score, nearest_rider = -1.0, None` with an empty rejection list. -/
def initState : SelState :=
  { best := -1, inc := none, rej := [] }

namespace IntegratedOne

/-- One row of integrated_one's rider query: the SQL applies
`COALESCE(rp.acceptance_rate, 0)`, `COALESCE(rp.avg_delivery_time, 30)` and
`COALESCE(rp.rejection_count, 0)`, so the performance columns are never NULL
in this variant. -/
def mkView (r : Rider) (ra : RiderAvailability) (rp : Option RiderPerformance) : RiderView :=
  { id := r.id
    title := r.title
    status := r.status
    current_lat := ra.current_lat
    current_lng := ra.current_lng
    is_available := ra.is_available
    active_order_count := ra.active_order_count
    max_capacity := ra.max_capacity
    acceptance_rate := some ((rp.map (fun p => p.acceptance_rate)).getD 0)
    avg_delivery_time := some ((rp.map (fun p => p.avg_delivery_time)).getD 30)
    rejection_count := some ((rp.map (fun p => (p.rejection_count : ℚ))).getD 0) }

/-- The FROM/JOIN part of integrated_one's rider query. -/
def joinRows (db : DB) : List RiderView :=
  db.riders.flatMap (fun r =>
    (db.availability.filter (fun ra => ra.rider_id == r.id)).flatMap (fun ra =>
      (leftJoinPerf db r.id).map (mkView r ra)))

/-- `get_riders_by_route`: `SELECT DISTINCT rider_id FROM tbl_rider_routes
WHERE zone_id = %s`. -/
def get_riders_by_route (db : DB) (zone_id : Nat) : List Nat :=
  (((db.rider_routes.filter (fun rr => rr.zone_id == zone_id)).map
    (fun rr => rr.rider_id))).eraseDups

/-- integrated_one's `get_available_riders`: base query filtered by the
availability predicate, then — only when `zone_id` is truthy — restricted to
riders registered on a route for that zone.  There is no second, city-wide
query when the restricted list comes back empty. -/
def get_available_riders (db : DB) (zone_id : Option Nat) : List RiderView :=
  let riders := (joinRows db).filter availablePred
  match zone_id with
  | some z =>
    if z ≠ 0 then riders.filter (fun v => (get_riders_by_route db z).contains v.id)
    else riders
  | none => riders

/-- integrated_one's `validate_eta`: the leading integer of the ETA text must
lie in `[delivery_time_min or 0, delivery_time_max or 10**9]`; a text with no
digits fails. -/
def validate_eta (eta_min : Option ℤ) (meta : ZoneMeta) : Bool :=
  match eta_min with
  | none => false
  | some m =>
    decide (pyOrZ meta.delivery_time_min 0 ≤ m ∧ m ≤ pyOrZ meta.delivery_time_max (10 ^ 9))

/-- The body of integrated_one's `for r in riders` evaluation loop.  A routing
failure rejects the candidate with `distance_eta_unavailable`; an unparsable
distance text rejects with `distance_parse_error`; an out-of-window ETA with
`eta_invalid`; otherwise the candidate replaces the incumbent exactly when its
score is strictly greater, and is rejected with `low_score` otherwise. -/
def scanRider (meta : ZoneMeta) (st : SelState) (c : Cand) : SelState :=
  match c.routing with
  | none => { st with rej := st.rej ++ [(c.rider.id, Reason.distance_eta_unavailable)] }
  | some (dk, eta) =>
    match dk with
    | none => { st with rej := st.rej ++ [(c.rider.id, Reason.distance_parse_error)] }
    | some dist_km =>
      if validate_eta eta meta = false then
        { st with rej := st.rej ++ [(c.rider.id, Reason.eta_invalid)] }
      else
        let score := calculate_rider_score c.rider (some dist_km)
        if st.best < score then
          { best := score, inc := some c.rider, rej := st.rej }
        else
          { st with rej := st.rej ++ [(c.rider.id, Reason.low_score)] }

/-- The whole evaluation loop over the candidate list. -/
def selectBest (meta : ZoneMeta) (cs : List Cand) : SelState :=
  cs.foldl (scanRider meta) initState

/-- The eligible score of a candidate: `some s` exactly when the loop body
reaches the scoring comparison for it, with `s` the computed score. -/
def eligScore (meta : ZoneMeta) (c : Cand) : Option ℚ :=
  match c.routing with
  | none => none
  | some (dk, eta) =>
    match dk with
    | none => none
    | some dist_km =>
      if validate_eta eta meta = false then none
      else some (calculate_rider_score c.rider (some dist_km))

/-- Reasons an order ends a pass without an assignment in integrated_one's
`process_order_table`. -/
inductive NAReason where
  | invalid_address
  | no_zone
  | zone_meta_missing
  | outside_radius
  | no_riders
  | no_rider_selected
deriving DecidableEq

/-- Per-order outcome of integrated_one's `process_order_table`. -/
inductive OrderResult where
  | assigned (rider_id : Nat) (score : ℚ) (zone_id : Nat)
  | not_assigned (why : NAReason)
deriving DecidableEq

/-- The per-order inputs obtained from the external collaborators:
the geocoder result, the zone resolved by shapely point-in-polygon
containment (`find_zone`), the `tbl_delivery_zones` row (`None` when missing
or inactive), the `is_within_zone` radius check (computed with a float square
root), and the routing result for each candidate row. -/
structure OrderCtx where
  order_id : Nat
  uid : Nat
  geo : Option (ℚ × ℚ)
  zone : Option Nat
  meta : Option ZoneMeta
  within : Bool
  routing : RiderView → RouteInfo

/-- integrated_one's `assign_order`: five statements followed by a commit
(update the order row, set `tbl_rider.rstatus`, increment the courier's
`active_order_count`, insert the assignment record, insert the delivery
record). -/
def assign_order (db : DB) (order_id rider_id : Nat) (score : ℚ) (zone_id : Nat) : DB :=
  { db with
    orders := db.orders.map (fun o =>
      if o.id == order_id then { o with rid := some rider_id, order_status := 1 } else o)
    riders := db.riders.map (fun r =>
      if r.id == rider_id then { r with rstatus := 1 } else r)
    availability := db.availability.map (fun ra =>
      if ra.rider_id == rider_id then
        { ra with active_order_count := ra.active_order_count + 1 }
      else ra)
    assignments := db.assignments ++ [{ order_id := order_id, rider_id := rider_id, score := score }]
    deliveries := db.deliveries ++ [{ order_id := order_id, rider_id := rider_id, zone_id := zone_id }] }

/-- One iteration of integrated_one's `process_order_table` order loop,
returning the updated database, the per-order outcome, and the rejection
pairs passed to `log_rider_rejection` for this order.  When a courier is
assigned, the logging loop skips pairs whose rider id equals the winner's. -/
def processOrder (db : DB) (ctx : OrderCtx) : DB × OrderResult × List (Nat × Reason) :=
  match ctx.geo with
  | none => (db, OrderResult.not_assigned NAReason.invalid_address, [])
  | some _ =>
    match ctx.zone with
    | none => (db, OrderResult.not_assigned NAReason.no_zone, [])
    | some zid =>
      if zid = 0 then (db, OrderResult.not_assigned NAReason.no_zone, [])
      else
        match ctx.meta with
        | none => (db, OrderResult.not_assigned NAReason.zone_meta_missing, [])
        | some meta =>
          if ctx.within = false then
            (db, OrderResult.not_assigned NAReason.outside_radius, [])
          else
            let riders := get_available_riders db (some zid)
            if riders.isEmpty then (db, OrderResult.not_assigned NAReason.no_riders, [])
            else
              let cands := riders.map (fun v => ({ rider := v, routing := ctx.routing v } : Cand))
              let st := selectBest meta cands
              match st.inc with
              | some w =>
                (assign_order db ctx.order_id w.id st.best zid,
                 OrderResult.assigned w.id st.best zid,
                 st.rej.filter (fun p => decide (p.1 ≠ w.id)))
              | none => (db, OrderResult.not_assigned NAReason.no_rider_selected, st.rej)

/-- The counting fold of `process_order_table` with explicit accumulators. -/
def processPassGo (db : DB) (ctxs : List OrderCtx) (assigned not_assigned : Nat) :
    DB × Nat × Nat :=
  match ctxs with
  | [] => (db, assigned, not_assigned)
  | ctx :: rest =>
    let r := processOrder db ctx
    match r.2.1 with
    | OrderResult.assigned _ _ _ => processPassGo r.1 rest (assigned + 1) not_assigned
    | OrderResult.not_assigned _ => processPassGo r.1 rest assigned (not_assigned + 1)

/-- integrated_one's `process_order_table`, reduced to its database effect and
the returned `(assigned, not_assigned)` counters. -/
def process_order_table (db : DB) (ctxs : List OrderCtx) : DB × Nat × Nat :=
  processPassGo db ctxs 0 0

end IntegratedOne

namespace OrderAssign

/-- Order row as read by order_assign's `process_order_table` (the columns the
commit writes or reads). -/
structure OrderRowA where
  id : Nat
  uid : Nat
  store_id : Nat
  rid : Option Nat
  order_status : Nat
deriving DecidableEq

/-- Row of order_assign's `tbl_delivery` insert. -/
structure DeliveryRowA where
  store_id : Nat
  rider_id : Nat
  status : Nat
deriving DecidableEq

/-- Row of order_assign's `tbl_rider_performance` upsert, keyed by
`(rider_id, date, hour)`. -/
structure PerfRowA where
  rider_id : Nat
  pdate : Nat
  phour : Nat
  orders_assigned : Nat
  orders_accepted : Nat
deriving DecidableEq

/-- Database snapshot for the order_assign engine. -/
structure DBA where
  orders : List OrderRowA
  availability : List RiderAvailability
  deliveries : List DeliveryRowA
  performance : List PerfRowA
deriving DecidableEq

/-- Statement 1 of the commit: `UPDATE {table} SET rid = %s, order_status = 1
WHERE id = %s`. -/
def writeOrder (o : OrderRowA) (rider_id : Nat) (db : DBA) : DBA :=
  { db with orders := db.orders.map (fun r =>
      if r.id == o.id then { r with rid := some rider_id, order_status := 1 } else r) }

/-- Statement 2: `UPDATE tbl_rider_availability SET active_order_count =
active_order_count + 1 WHERE rider_id = %s`. -/
def writeAvailability (rider_id : Nat) (db : DBA) : DBA :=
  { db with availability := db.availability.map (fun ra =>
      if ra.rider_id == rider_id then
        { ra with active_order_count := ra.active_order_count + 1 }
      else ra) }

/-- Statement 3: the `tbl_delivery` insert. -/
def writeDelivery (o : OrderRowA) (rider_id : Nat) (db : DBA) : DBA :=
  { db with deliveries := db.deliveries ++ [{ store_id := o.store_id, rider_id := rider_id, status := 1 }] }

/-- Statement 4: the `tbl_rider_performance` insert with
`ON DUPLICATE KEY UPDATE` on the `(rider_id, date, hour)` key. -/
def writePerformance (rider_id : Nat) (now : Nat × Nat) (db : DBA) : DBA :=
  if db.performance.any (fun p =>
      p.rider_id == rider_id && p.pdate == now.1 && p.phour == now.2) then
    { db with performance := db.performance.map (fun p =>
        if p.rider_id == rider_id && p.pdate == now.1 && p.phour == now.2 then
          { p with orders_assigned := p.orders_assigned + 1,
                   orders_accepted := p.orders_accepted + 1 }
        else p) }
  else
    { db with performance := db.performance ++
        [{ rider_id := rider_id, pdate := now.1, phour := now.2,
           orders_assigned := 1, orders_accepted := 1 }] }

/-- order_assign's `assign_order`: the four statements run inside one database
transaction (`conn.start_transaction()` … `conn.commit()`).  `failAt = some i`
models statement `i` raising: the `except` block then calls `conn.rollback()`,
which discards the statements already executed in the open transaction, prints
the error and falls through — the exception is swallowed, never re-raised.
The Bool in the result records whether an exception reaches the caller; with
this code it is always `false`. -/
def assign_order (db : DBA) (o : OrderRowA) (rider_id : Nat) (now : Nat × Nat)
    (failAt : Option (Fin 4)) : DBA × Bool :=
  match failAt with
  | none =>
    (writePerformance rider_id now
      (writeDelivery o rider_id (writeAvailability rider_id (writeOrder o rider_id db))),
     false)
  | some _ => (db, false)

/-- How one order leaves order_assign's `process_order_table` loop:
`skipped` is the invalid-address `continue` (touching neither counter),
the other two outcomes feed `assigned += 1` / `not_assigned += 1`. -/
inductive OutcomeA where
  | skipped
  | assigned
  | not_assigned
deriving DecidableEq

/-- Per-order external inputs for order_assign's loop: the geocoder result,
the id of the first courier in the offer cascade to accept (the cascade's
responses come from `random.random()`, so they are an input here; `none`
means every offered courier rejected or no candidates existed), the failing
statement of the commit transaction if any, and the `(date, hour)` key. -/
structure OrderCtxA where
  order : OrderRowA
  geo : Option (ℚ × ℚ)
  accepted : Option Nat
  txFail : Option (Fin 4)
  now : Nat × Nat

/-- One iteration of order_assign's order loop.  `if not lat or not lng`
treats `None` and `0.0` as invalid and runs `continue` without touching any
counter.  When a courier accepted, `assign_order` runs and the order is
counted assigned regardless of whether the commit transaction failed. -/
def processOrder (db : DBA) (c : OrderCtxA) : DBA × OutcomeA :=
  match c.geo with
  | none => (db, OutcomeA.skipped)
  | some (lat, lng) =>
    if lat = 0 ∨ lng = 0 then (db, OutcomeA.skipped)
    else
      match c.accepted with
      | some rider_id =>
        let r := assign_order db c.order rider_id c.now c.txFail
        (r.1, OutcomeA.assigned)
      | none => (db, OutcomeA.not_assigned)

/-- The counting fold of order_assign's `process_order_table`. -/
def processPassGo (db : DBA) (cs : List OrderCtxA) (assigned not_assigned : Nat) :
    DBA × Nat × Nat :=
  match cs with
  | [] => (db, assigned, not_assigned)
  | c :: rest =>
    let r := processOrder db c
    match r.2 with
    | OutcomeA.skipped => processPassGo r.1 rest assigned not_assigned
    | OutcomeA.assigned => processPassGo r.1 rest (assigned + 1) not_assigned
    | OutcomeA.not_assigned => processPassGo r.1 rest assigned (not_assigned + 1)

/-- order_assign's `process_order_table`, reduced to its database effect and
the returned `(assigned, not_assigned)` counters. -/
def process_order_table (db : DBA) (cs : List OrderCtxA) : DBA × Nat × Nat :=
  processPassGo db cs 0 0

end OrderAssign

namespace Timepass

/-- One row of timepass's rider query: no COALESCE, so the performance
columns stay NULL when the LEFT JOIN finds no row; `rejection_count` is not
selected. -/
def mkView (r : Rider) (ra : RiderAvailability) (rp : Option RiderPerformance) : RiderView :=
  { id := r.id
    title := r.title
    status := r.status
    current_lat := ra.current_lat
    current_lng := ra.current_lng
    is_available := ra.is_available
    active_order_count := ra.active_order_count
    max_capacity := ra.max_capacity
    acceptance_rate := rp.map (fun p => p.acceptance_rate)
    avg_delivery_time := rp.map (fun p => p.avg_delivery_time)
    rejection_count := none }

/-- The FROM/JOIN part of timepass's rider query. -/
def joinRows (db : DB) : List RiderView :=
  db.riders.flatMap (fun r =>
    (db.availability.filter (fun ra => ra.rider_id == r.id)).flatMap (fun ra =>
      (leftJoinPerf db r.id).map (mkView r ra)))

/-- timepass's `get_available_riders`: the zone route filter in the source is
commented out, so the zone argument has no effect and is omitted here. -/
def get_available_riders (db : DB) : List RiderView :=
  (joinRows db).filter availablePred

/-- timepass's `validate_eta`: direct dictionary accesses, so a NULL bound or
an unparsable ETA text makes the `except` branch return `False`. -/
def validate_eta (eta_min : Option ℤ) (meta : ZoneMeta) : Bool :=
  match eta_min, meta.delivery_time_min, meta.delivery_time_max with
  | some m, some lo, some hi => decide (lo ≤ m ∧ m ≤ hi)
  | _, _, _ => false

/-- The body of timepass's evaluation loop.  Differences from integrated_one:
an unparsable distance text silently becomes `999999` km instead of a
rejection, and a replaced incumbent is appended to `rejected_riders` with
reason `low_score`. -/
def scanRider (meta : ZoneMeta) (st : SelState) (c : Cand) : SelState :=
  match c.routing with
  | none => { st with rej := st.rej ++ [(c.rider.id, Reason.distance_eta_unavailable)] }
  | some (dk, eta) =>
    let dist_km := dk.getD 999999
    if validate_eta eta meta = false then
      { st with rej := st.rej ++ [(c.rider.id, Reason.eta_invalid)] }
    else
      let score := calculate_rider_score c.rider (some dist_km)
      if st.best < score then
        { best := score, inc := some c.rider,
          rej := st.rej ++
            (match st.inc with
             | some o => [(o.id, Reason.low_score)]
             | none => []) }
      else
        { st with rej := st.rej ++ [(c.rider.id, Reason.low_score)] }

/-- The whole timepass evaluation loop. -/
def selectBest (meta : ZoneMeta) (cs : List Cand) : SelState :=
  cs.foldl (scanRider meta) initState

/-- The eligible score of a candidate under timepass's loop. -/
def eligScore (meta : ZoneMeta) (c : Cand) : Option ℚ :=
  match c.routing with
  | none => none
  | some (dk, eta) =>
    if validate_eta eta meta = false then none
    else some (calculate_rider_score c.rider (some (dk.getD 999999)))

/-- The rejection pairs timepass hands to `log_rider_rejection` for one order:
both the assigned branch and the unassigned branch log the whole
`rejected_riders` list, with no guard against the winner's id. -/
def loggedRejections (meta : ZoneMeta) (cs : List Cand) : List (Nat × Reason) :=
  (selectBest meta cs).rej

end Timepass

/-- A polygon as handed to shapely: the ordered ring of `(lng, lat)` points. -/
structure Poly where
  ring : List (ℚ × ℚ)
deriving DecidableEq

/-- One row of the `zones` table as seen after the parsing stage of
integrated_one's `load_zones`: `parsed = some pts` is the point list the
JSON / text parsers produced, `parsed = none` models the rows whose
coordinate value is empty or whose parsing raised (the exception is caught
and the row skipped). -/
structure ZoneRow where
  id : Nat
  title : String
  parsed : Option (List (ℚ × ℚ))
deriving DecidableEq

/-- A loaded zone. -/
structure ZoneRec where
  id : Nat
  title : String
  polygon : Poly
deriving DecidableEq

namespace IntegratedOne

/-- The per-row pipeline of integrated_one's `load_zones` after parsing:
fewer than 3 points drops the row with a warning; a polygon failing the
validity check is replaced by its zero-distance buffer; the row is then
appended unconditionally — there is no re-check after the repair.
`isValid` and `buffer0` model shapely's `is_valid` and `buffer(0)`
(external geometry code). -/
def loadZoneRow (isValid : Poly → Bool) (buffer0 : Poly → Poly) (row : ZoneRow) :
    Option ZoneRec :=
  match row.parsed with
  | none => none
  | some pts =>
    if pts.length < 3 then none
    else
      let polygon := Poly.mk pts
      let polygon2 := if isValid polygon = false then buffer0 polygon else polygon
      some { id := row.id, title := row.title, polygon := polygon2 }

/-- integrated_one's `load_zones` over the active zone rows. -/
def load_zones (isValid : Poly → Bool) (buffer0 : Poly → Poly) (rows : List ZoneRow) :
    List ZoneRec :=
  rows.filterMap (loadZoneRow isValid buffer0)

end IntegratedOne

/-! Concrete instances used by the per-claim counterexamples and witnesses. -/

def ordC1 : OrderAssign.OrderRowA :=
  { id := 41, uid := 5, store_id := 3, rid := none, order_status := 0 }

def availC1 : RiderAvailability :=
  { rider_id := 7, current_lat := 0, current_lng := 0, is_online := true,
    is_available := true, active_order_count := 0, max_capacity := 2 }

def dbC1 : OrderAssign.DBA :=
  { orders := [ordC1], availability := [availC1], deliveries := [], performance := [] }

def ctxC1 : OrderAssign.OrderCtxA :=
  { order := ordC1, geo := some (1, 1), accepted := some 7, txFail := some 2, now := (20, 14) }

def riderC2 : Rider := { id := 1, title := "", status := 1, rstatus := 0 }

def availC2 : RiderAvailability :=
  { rider_id := 1, current_lat := 0, current_lng := 0, is_online := true,
    is_available := true, active_order_count := 0, max_capacity := 2 }

def dbC2 : DB :=
  { riders := [riderC2], availability := [availC2], performance := [],
    rider_routes := [], orders := [{ id := 21, uid := 2, rid := none, order_status := 0 }],
    assignments := [], deliveries := [] }

def metaC2 : ZoneMeta := { delivery_time_min := some 0, delivery_time_max := some 100 }

def ctxC2 : IntegratedOne.OrderCtx :=
  { order_id := 21, uid := 2, geo := some (1, 1), zone := some 5, meta := some metaC2,
    within := true, routing := fun _ => some (some 1, some 20) }

def riderC3 : Rider := { id := 1, title := "", status := 1, rstatus := 0 }

def availC3 : RiderAvailability :=
  { rider_id := 1, current_lat := 0, current_lng := 0, is_online := true,
    is_available := true, active_order_count := 0, max_capacity := 2 }

def dbC3 : DB :=
  { riders := [riderC3], availability := [availC3], performance := [],
    rider_routes := [{ rider_id := 1, zone_id := 5 }],
    orders := [{ id := 11, uid := 3, rid := none, order_status := 0 }],
    assignments := [], deliveries := [] }

def metaC3 : ZoneMeta := { delivery_time_min := some 0, delivery_time_max := some 60 }

def ctxC3 : IntegratedOne.OrderCtx :=
  { order_id := 11, uid := 3, geo := some (1, 1), zone := some 5, meta := some metaC3,
    within := true, routing := fun _ => none }

def riderC4 : Rider := { id := 2, title := "", status := 1, rstatus := 0 }

def availC4 : RiderAvailability :=
  { rider_id := 2, current_lat := 0, current_lng := 0, is_online := true,
    is_available := true, active_order_count := 1, max_capacity := 3 }

def dbC4 : DB :=
  { riders := [riderC4], availability := [availC4], performance := [],
    rider_routes := [], orders := [], assignments := [], deliveries := [] }

def metaC5 : ZoneMeta := { delivery_time_min := some 0, delivery_time_max := some 100 }

def vC5a : RiderView :=
  { id := 3, title := "", status := 1, current_lat := 0, current_lng := 0,
    is_available := true, active_order_count := 0, max_capacity := 2,
    acceptance_rate := some (1 / 2), avg_delivery_time := some 10, rejection_count := some 0 }

def vC5b : RiderView :=
  { id := 4, title := "", status := 1, current_lat := 0, current_lng := 0,
    is_available := true, active_order_count := 0, max_capacity := 2,
    acceptance_rate := some (1 / 2), avg_delivery_time := some 10, rejection_count := some 0 }

def candC5a : Cand := { rider := vC5a, routing := some (some 1, some 20) }

def candC5b : Cand := { rider := vC5b, routing := some (some 1, some 20) }

/-- The common score of the two C5 candidates. -/
def sC5 : ℚ := calculate_rider_score vC5a (some 1)

def riderC6 : Rider := { id := 1, title := "", status := 1, rstatus := 0 }

def availC6 : RiderAvailability :=
  { rider_id := 1, current_lat := 0, current_lng := 0, is_online := true,
    is_available := true, active_order_count := 0, max_capacity := 2 }

def perfC6 : RiderPerformance :=
  { rider_id := 1, acceptance_rate := 4 / 5, avg_delivery_time := 0, rejection_count := 0 }

def dbC6 : DB :=
  { riders := [riderC6], availability := [availC6], performance := [perfC6],
    rider_routes := [], orders := [], assignments := [], deliveries := [] }

def perfC6w : RiderPerformance :=
  { rider_id := 1, acceptance_rate := 9 / 10, avg_delivery_time := 25, rejection_count := 0 }

def viewC7 : RiderView :=
  { id := 5, title := "", status := 1, current_lat := 0, current_lng := 0,
    is_available := true, active_order_count := 0, max_capacity := 2,
    acceptance_rate := some (9 / 10), avg_delivery_time := some 25, rejection_count := some 0 }

def ordC8 : OrderAssign.OrderRowA :=
  { id := 31, uid := 4, store_id := 2, rid := none, order_status := 0 }

def ctxC8 : OrderAssign.OrderCtxA :=
  { order := ordC8, geo := none, accepted := some 7, txFail := none, now := (1, 2) }

def dbC8 : OrderAssign.DBA :=
  { orders := [ordC8], availability := [], deliveries := [], performance := [] }

def dbC8i : DB :=
  { riders := [], availability := [], performance := [], rider_routes := [],
    orders := [{ id := 32, uid := 4, rid := none, order_status := 0 }],
    assignments := [], deliveries := [] }

def ctxC8i : IntegratedOne.OrderCtx :=
  { order_id := 32, uid := 4, geo := none, zone := some 5, meta := none,
    within := true, routing := fun _ => none }

def rowC9 : ZoneRow :=
  { id := 9, title := "", parsed := some [(0, 0), (1, 0), (0, 1)] }

def riderC10 : Rider := { id := 7, title := "", status := 1, rstatus := 0 }

def availC10 : RiderAvailability :=
  { rider_id := 7, current_lat := 0, current_lng := 0, is_online := true,
    is_available := true, active_order_count := 0, max_capacity := 3 }

def perfC10a : RiderPerformance :=
  { rider_id := 7, acceptance_rate := 1 / 10, avg_delivery_time := 10, rejection_count := 0 }

def perfC10b : RiderPerformance :=
  { rider_id := 7, acceptance_rate := 9 / 10, avg_delivery_time := 10, rejection_count := 0 }

/-- A database in which rider 7 has two `tbl_rider_performance` rows, so the
LEFT JOIN in timepass's rider query yields two candidate rows with the same
rider id. -/
def dbC10 : DB :=
  { riders := [riderC10], availability := [availC10],
    performance := [perfC10a, perfC10b], rider_routes := [], orders := [],
    assignments := [], deliveries := [] }

def metaC10 : ZoneMeta := { delivery_time_min := some 0, delivery_time_max := some 100 }

def candsC10 : List Cand :=
  (Timepass.get_available_riders dbC10).map
    (fun v => { rider := v, routing := some (some 1, some 20) })

/-- The two candidate rows timepass's rider query produces for rider 7. -/
def vC10A : RiderView := Timepass.mkView riderC10 availC10 (some perfC10a)

def vC10B : RiderView := Timepass.mkView riderC10 availC10 (some perfC10b)

def candC10A : Cand := { rider := vC10A, routing := some (some 1, some 20) }

def candC10B : Cand := { rider := vC10B, routing := some (some 1, some 20) }

/-- Loop state after evaluating the first / the second C10 candidate. -/
def stC10mid : SelState :=
  { best := calculate_rider_score vC10A (some 1), inc := some vC10A, rej := [] }

def stC10fin : SelState :=
  { best := calculate_rider_score vC10B (some 1), inc := some vC10B,
    rej := [(7, Reason.low_score)] }

def vC10a : RiderView :=
  { id := 3, title := "", status := 1, current_lat := 0, current_lng := 0,
    is_available := true, active_order_count := 0, max_capacity := 2,
    acceptance_rate := some (1 / 10), avg_delivery_time := some 10, rejection_count := none }

def vC10b : RiderView :=
  { id := 4, title := "", status := 1, current_lat := 0, current_lng := 0,
    is_available := true, active_order_count := 0, max_capacity := 2,
    acceptance_rate := some (9 / 10), avg_delivery_time := some 10, rejection_count := none }

def csC10w : List Cand :=
  [{ rider := vC10a, routing := some (some 1, some 20) },
   { rider := vC10b, routing := some (some 1, some 20) }]

/-- Loop state after evaluating the first / the second C10-witness candidate. -/
def stC10wmid : SelState :=
  { best := calculate_rider_score vC10a (some 1), inc := some vC10a, rej := [] }

def stC10wfin : SelState :=
  { best := calculate_rider_score vC10b (some 1), inc := some vC10b,
    rej := [(3, Reason.low_score)] }

/-! General lemmas about the embedded definitions. -/

theorem pyOrQ_some_of_ne (a d : ℚ) (h : a ≠ 0) : pyOrQ (some a) d = a := by
  simp [pyOrQ, h]

theorem pyOrQ_some_default_zero (a : ℚ) : pyOrQ (some a) 0 = a := by
  by_cases h : a = 0
  · simp [pyOrQ, h]
  · simp [pyOrQ, h]

theorem pyOrQ_some_zero (d : ℚ) : pyOrQ (some 0) d = d := by
  simp [pyOrQ]

theorem availablePred_lt {v : RiderView} (h : availablePred v = true) :
    v.active_order_count < v.max_capacity := by
  simp only [availablePred, Bool.and_eq_true, decide_eq_true_eq] at h
  exact h.2

theorem IntegratedOne.mkView_id (r : Rider) (ra : RiderAvailability)
    (rp : Option RiderPerformance) : (IntegratedOne.mkView r ra rp).id = r.id := rfl

theorem IntegratedOne.mem_joinRows_availability {db : DB} {v : RiderView}
    (hv : v ∈ IntegratedOne.joinRows db) :
    ∃ ra ∈ db.availability, ra.rider_id = v.id ∧
      ra.active_order_count = v.active_order_count ∧
      ra.max_capacity = v.max_capacity := by
  simp only [IntegratedOne.joinRows, List.mem_flatMap, List.mem_map, List.mem_filter] at hv
  obtain ⟨r, _, ra, ⟨hra, hraid⟩, rp, _, rfl⟩ := hv
  have hid : ra.rider_id = r.id := by simpa using hraid
  exact ⟨ra, hra, by simp [IntegratedOne.mkView, hid], rfl, rfl⟩

theorem IntegratedOne.mem_get_available_riders {db : DB} {z : Option Nat} {v : RiderView}
    (h : v ∈ IntegratedOne.get_available_riders db z) :
    v ∈ IntegratedOne.joinRows db ∧ availablePred v = true := by
  rcases z with _ | zv
  · simpa [IntegratedOne.get_available_riders, List.mem_filter] using h
  · simp only [IntegratedOne.get_available_riders] at h
    by_cases h0 : zv ≠ 0
    · rw [if_pos h0] at h
      simp only [List.mem_filter] at h
      exact ⟨h.1.1, h.1.2⟩
    · rw [if_neg h0] at h
      simp only [List.mem_filter] at h
      exact h

theorem IntegratedOne.scanRider_eligScore (meta : ZoneMeta) (st : SelState) (c : Cand)
    (s : ℚ) (hs : IntegratedOne.eligScore meta c = some s) :
    IntegratedOne.scanRider meta st c =
      if st.best < s then { best := s, inc := some c.rider, rej := st.rej }
      else { st with rej := st.rej ++ [(c.rider.id, Reason.low_score)] } := by
  rcases hc : c.routing with _ | ⟨dk, eta⟩
  · simp [IntegratedOne.eligScore, hc] at hs
  · rcases hdk : dk with _ | dist
    · simp [IntegratedOne.eligScore, hc, hdk] at hs
    · by_cases hv : IntegratedOne.validate_eta eta meta = false
      · simp [IntegratedOne.eligScore, hc, hdk, hv] at hs
      · have hs2 : calculate_rider_score c.rider (some dist) = s := by
          simpa [IntegratedOne.eligScore, hc, hdk, hv] using hs
        simp [IntegratedOne.scanRider, hc, hdk, hv, hs2]

theorem Timepass.scanRiderT_eligScore (meta : ZoneMeta) (st : SelState) (c : Cand)
    (s : ℚ) (hs : Timepass.eligScore meta c = some s) :
    Timepass.scanRider meta st c =
      if st.best < s then
        { best := s, inc := some c.rider,
          rej := st.rej ++
            (match st.inc with
             | some o => [(o.id, Reason.low_score)]
             | none => []) }
      else { st with rej := st.rej ++ [(c.rider.id, Reason.low_score)] } := by
  rcases hc : c.routing with _ | ⟨dk, eta⟩
  · simp [Timepass.eligScore, hc] at hs
  · by_cases hv : Timepass.validate_eta eta meta = false
    · simp [Timepass.eligScore, hc, hv] at hs
    · have hs2 : calculate_rider_score c.rider (some (dk.getD 999999)) = s := by
        simpa [Timepass.eligScore, hc, hv] using hs
      simp [Timepass.scanRider, hc, hv, hs2]

theorem IntegratedOne.scanRider_inc (meta : ZoneMeta) (st : SelState) (c : Cand) :
    (IntegratedOne.scanRider meta st c).inc = st.inc ∨
    (IntegratedOne.scanRider meta st c).inc = some c.rider := by
  rcases hc : c.routing with _ | ⟨dk, eta⟩
  · left; simp [IntegratedOne.scanRider, hc]
  · rcases hdk : dk with _ | dist
    · left; simp [IntegratedOne.scanRider, hc, hdk]
    · by_cases hv : IntegratedOne.validate_eta eta meta = false
      · left; simp [IntegratedOne.scanRider, hc, hdk, hv]
      · by_cases hlt : st.best < calculate_rider_score c.rider (some dist)
        · right; simp [IntegratedOne.scanRider, hc, hdk, hv, hlt]
        · left; simp [IntegratedOne.scanRider, hc, hdk, hv, hlt]

theorem IntegratedOne.foldl_scanRider_inc (meta : ZoneMeta) :
    ∀ (cs : List Cand) (st : SelState) (w : RiderView),
      (cs.foldl (IntegratedOne.scanRider meta) st).inc = some w →
      st.inc = some w ∨ w ∈ cs.map Cand.rider := by
  intro cs
  induction cs with
  | nil => intro st w h; exact Or.inl h
  | cons c rest ih =>
    intro st w h
    rcases ih (IntegratedOne.scanRider meta st c) w h with h1 | h1
    · rcases IntegratedOne.scanRider_inc meta st c with h2 | h2
      · rw [h2] at h1
        exact Or.inl h1
      · rw [h2] at h1
        have : c.rider = w := by simpa using h1
        right
        simp [this]
    · right
      simp [h1]

theorem IntegratedOne.foldl_scanRider_all_unavailable (meta : ZoneMeta) :
    ∀ (cs : List Cand) (st : SelState),
      (∀ c ∈ cs, c.routing = none) →
      cs.foldl (IntegratedOne.scanRider meta) st =
        { st with rej := st.rej ++
            cs.map (fun c => (c.rider.id, Reason.distance_eta_unavailable)) } := by
  intro cs
  induction cs with
  | nil => intro st _; simp
  | cons c rest ih =>
    intro st hall
    have hc : c.routing = none := hall c (List.mem_cons_self c rest)
    have hrest : ∀ c2 ∈ rest, c2.routing = none :=
      fun c2 h2 => hall c2 (List.mem_cons_of_mem c h2)
    simp only [List.foldl_cons]
    rw [show IntegratedOne.scanRider meta st c =
        { st with rej := st.rej ++ [(c.rider.id, Reason.distance_eta_unavailable)] } by
      simp [IntegratedOne.scanRider, hc]]
    rw [ih _ hrest]
    simp

theorem IntegratedOne.processPassGo_shift :
    ∀ (ctxs : List IntegratedOne.OrderCtx) (db : DB) (a n : Nat),
      IntegratedOne.processPassGo db ctxs a n =
        ((IntegratedOne.process_order_table db ctxs).1,
         a + (IntegratedOne.process_order_table db ctxs).2.1,
         n + (IntegratedOne.process_order_table db ctxs).2.2) := by
  intro ctxs
  induction ctxs with
  | nil =>
    intro db a n
    simp [IntegratedOne.processPassGo, IntegratedOne.process_order_table]
  | cons ctx rest ih =>
    intro db a n
    simp only [IntegratedOne.process_order_table, IntegratedOne.processPassGo]
    rcases hres : (IntegratedOne.processOrder db ctx).2.1 with ⟨w, s, z⟩ | why
    all_goals
      simp only [ih, Prod.mk.injEq, true_and]
      exact ⟨by omega, by omega⟩

theorem IntegratedOne.assign_order_capacity {db : DB} {oid rid : Nat} {score : ℚ}
    {zid : Nat}
    (hnd : (db.availability.map (fun ra => ra.rider_id)).Nodup)
    (hb : ∀ ra ∈ db.availability, ra.active_order_count ≤ ra.max_capacity)
    (hex : ∃ ra0 ∈ db.availability, ra0.rider_id = rid ∧
      ra0.active_order_count < ra0.max_capacity) :
    ∀ ra2 ∈ (IntegratedOne.assign_order db oid rid score zid).availability,
      ra2.active_order_count ≤ ra2.max_capacity := by
  intro ra2 h2
  simp only [IntegratedOne.assign_order, List.mem_map] at h2
  obtain ⟨ra, hra, hra2⟩ := h2
  by_cases hid : ra.rider_id = rid
  · obtain ⟨ra0, hra0, hid0, hlt0⟩ := hex
    have heq : ra = ra0 :=
      List.inj_on_of_nodup_map hnd hra hra0 (by rw [hid, hid0])
    rw [← hra2]
    simp only [hid, beq_self_eq_true, if_true]
    have : ra.active_order_count < ra.max_capacity := by rw [heq]; exact hlt0
    omega
  · rw [← hra2]
    have hbeq : (ra.rider_id == rid) = false := by simpa using hid
    simp only [hbeq, Bool.false_eq_true, if_false]
    exact hb ra hra

theorem IntegratedOne.processOrder_availability (db : DB) (ctx : IntegratedOne.OrderCtx)
    (hnd : (db.availability.map (fun ra => ra.rider_id)).Nodup)
    (hb : ∀ ra ∈ db.availability, ra.active_order_count ≤ ra.max_capacity) :
    ∀ ra2 ∈ (IntegratedOne.processOrder db ctx).1.availability,
      ra2.active_order_count ≤ ra2.max_capacity := by
  rcases hgeo : ctx.geo with _ | g
  · simpa [IntegratedOne.processOrder, hgeo] using hb
  · rcases hz : ctx.zone with _ | zid
    · simpa [IntegratedOne.processOrder, hgeo, hz] using hb
    · by_cases hz0 : zid = 0
      · simpa [IntegratedOne.processOrder, hgeo, hz, hz0] using hb
      · rcases hm : ctx.meta with _ | meta
        · simpa [IntegratedOne.processOrder, hgeo, hz, hz0, hm] using hb
        · by_cases hw : ctx.within = false
          · simpa [IntegratedOne.processOrder, hgeo, hz, hz0, hm, hw] using hb
          · by_cases hemp : (IntegratedOne.get_available_riders db (some zid)).isEmpty
            · simpa [IntegratedOne.processOrder, hgeo, hz, hz0, hm, hw, hemp] using hb
            · rcases hinc : (IntegratedOne.selectBest meta
                  ((IntegratedOne.get_available_riders db (some zid)).map
                    (fun v => ({ rider := v, routing := ctx.routing v } : Cand)))).inc
                with _ | w
              · simpa [IntegratedOne.processOrder, hgeo, hz, hz0, hm, hw, hemp, hinc]
                  using hb
              · have hwmem : w ∈ IntegratedOne.get_available_riders db (some zid) := by
                  rcases IntegratedOne.foldl_scanRider_inc meta _ initState w hinc with h1 | h1
                  · simp [initState] at h1
                  · simpa [List.map_map, Function.comp] using h1
                have hpred := (IntegratedOne.mem_get_available_riders hwmem).2
                have hlt := availablePred_lt hpred
                obtain ⟨ra0, hra0, hidid, hcnt, hcap⟩ :=
                  IntegratedOne.mem_joinRows_availability
                    (IntegratedOne.mem_get_available_riders hwmem).1
                have hres : (IntegratedOne.processOrder db ctx).1 =
                    IntegratedOne.assign_order db ctx.order_id w.id
                      (IntegratedOne.selectBest meta
                        ((IntegratedOne.get_available_riders db (some zid)).map
                          (fun v => ({ rider := v, routing := ctx.routing v } : Cand)))).best
                      zid := by
                  simp [IntegratedOne.processOrder, hgeo, hz, hz0, hm, hw, hemp, hinc]
                rw [hres]
                exact IntegratedOne.assign_order_capacity hnd hb
                  ⟨ra0, hra0, hidid, by omega⟩

theorem IntegratedOne.assign_order_availability_ids (db : DB) (oid rid : Nat)
    (score : ℚ) (zid : Nat) :
    ((IntegratedOne.assign_order db oid rid score zid).availability).map
      (fun ra => ra.rider_id) = db.availability.map (fun ra => ra.rider_id) := by
  simp only [IntegratedOne.assign_order, List.map_map]
  apply List.map_congr_left
  intro a _
  simp only [Function.comp]
  cases hbeq : a.rider_id == rid
  · simp
  · simp

theorem IntegratedOne.processOrder_availability_ids (db : DB)
    (ctx : IntegratedOne.OrderCtx) :
    ((IntegratedOne.processOrder db ctx).1.availability).map (fun ra => ra.rider_id) =
      db.availability.map (fun ra => ra.rider_id) := by
  rcases hgeo : ctx.geo with _ | g
  · simp [IntegratedOne.processOrder, hgeo]
  · rcases hz : ctx.zone with _ | zid
    · simp [IntegratedOne.processOrder, hgeo, hz]
    · by_cases hz0 : zid = 0
      · simp [IntegratedOne.processOrder, hgeo, hz, hz0]
      · rcases hm : ctx.meta with _ | meta
        · simp [IntegratedOne.processOrder, hgeo, hz, hz0, hm]
        · by_cases hw : ctx.within = false
          · simp [IntegratedOne.processOrder, hgeo, hz, hz0, hm, hw]
          · by_cases hemp : (IntegratedOne.get_available_riders db (some zid)).isEmpty
            · simp [IntegratedOne.processOrder, hgeo, hz, hz0, hm, hw, hemp]
            · rcases hinc : (IntegratedOne.selectBest meta
                  ((IntegratedOne.get_available_riders db (some zid)).map
                    (fun v => ({ rider := v, routing := ctx.routing v } : Cand)))).inc
                with _ | w
              · simp [IntegratedOne.processOrder, hgeo, hz, hz0, hm, hw, hemp, hinc]
              · have hres : (IntegratedOne.processOrder db ctx).1 =
                    IntegratedOne.assign_order db ctx.order_id w.id
                      (IntegratedOne.selectBest meta
                        ((IntegratedOne.get_available_riders db (some zid)).map
                          (fun v => ({ rider := v, routing := ctx.routing v } : Cand)))).best
                      zid := by
                  simp [IntegratedOne.processOrder, hgeo, hz, hz0, hm, hw, hemp, hinc]
                rw [hres, IntegratedOne.assign_order_availability_ids]

theorem IntegratedOne.process_order_table_cons_db (db : DB)
    (ctx : IntegratedOne.OrderCtx) (rest : List IntegratedOne.OrderCtx) :
    (IntegratedOne.process_order_table db (ctx :: rest)).1 =
      (IntegratedOne.process_order_table (IntegratedOne.processOrder db ctx).1 rest).1 := by
  show (IntegratedOne.processPassGo db (ctx :: rest) 0 0).1 = _
  simp only [IntegratedOne.processPassGo]
  rcases hres : (IntegratedOne.processOrder db ctx).2.1 with ⟨w, s, z⟩ | why
  all_goals
    dsimp only
    rw [IntegratedOne.processPassGo_shift]

theorem Timepass.scanRider_cases (meta : ZoneMeta) (st : SelState) (c : Cand) :
    (∃ rsn, Timepass.scanRider meta st c =
      { st with rej := st.rej ++ [(c.rider.id, rsn)] }) ∨
    (∃ s, Timepass.scanRider meta st c =
      { best := s, inc := some c.rider,
        rej := st.rej ++
          (match st.inc with
           | some o => [(o.id, Reason.low_score)]
           | none => []) }) := by
  rcases hc : c.routing with _ | ⟨dk, eta⟩
  · exact Or.inl ⟨Reason.distance_eta_unavailable, by simp [Timepass.scanRider, hc]⟩
  · by_cases hv : Timepass.validate_eta eta meta = false
    · exact Or.inl ⟨Reason.eta_invalid, by simp [Timepass.scanRider, hc, hv]⟩
    · by_cases hlt : st.best < calculate_rider_score c.rider (some (dk.getD 999999))
      · exact Or.inr ⟨calculate_rider_score c.rider (some (dk.getD 999999)),
          by simp [Timepass.scanRider, hc, hv, hlt]⟩
      · exact Or.inl ⟨Reason.low_score, by simp [Timepass.scanRider, hc, hv, hlt]⟩

theorem Timepass.foldl_scanRider_winner (meta : ZoneMeta) :
    ∀ (cs : List Cand) (st : SelState),
      (∀ p ∈ st.rej, p.1 ∉ cs.map (fun c2 => c2.rider.id)) →
      (∀ w0, st.inc = some w0 →
        (∀ p ∈ st.rej, p.1 ≠ w0.id) ∧ w0.id ∉ cs.map (fun c2 => c2.rider.id)) →
      (cs.map (fun c2 => c2.rider.id)).Nodup →
      ∀ w, (cs.foldl (Timepass.scanRider meta) st).inc = some w →
        ∀ p ∈ (cs.foldl (Timepass.scanRider meta) st).rej, p.1 ≠ w.id := by
  intro cs
  induction cs with
  | nil =>
    intro st _ h2 _ w hw p hp
    exact (h2 w hw).1 p hp
  | cons c rest ih =>
    intro st h1 h2 hnd w hw p hp
    rw [List.foldl_cons] at hw hp
    have hnd2 := List.nodup_cons.mp
      (show (c.rider.id :: rest.map (fun c2 => c2.rider.id)).Nodup from hnd)
    have hcnotin : c.rider.id ∉ rest.map (fun c2 => c2.rider.id) := hnd2.1
    have hndrest : (rest.map (fun c2 => c2.rider.id)).Nodup := hnd2.2
    have h1c : ∀ p2 ∈ st.rej,
        p2.1 ≠ c.rider.id ∧ p2.1 ∉ rest.map (fun c2 => c2.rider.id) := by
      intro p2 hp2
      have hq := h1 p2 hp2
      simp only [List.map_cons, List.mem_cons] at hq
      push_neg at hq
      exact hq
    have h2c : ∀ w0, st.inc = some w0 →
        w0.id ≠ c.rider.id ∧ w0.id ∉ rest.map (fun c2 => c2.rider.id) := by
      intro w0 hw0
      have hq := (h2 w0 hw0).2
      simp only [List.map_cons, List.mem_cons] at hq
      push_neg at hq
      exact hq
    rcases Timepass.scanRider_cases meta st c with ⟨rsn, hstep⟩ | ⟨s, hstep⟩
    · rw [hstep] at hw hp
      refine ih _ ?_ ?_ hndrest w hw p hp
      · intro p2 hp2
        simp only [List.mem_append, List.mem_singleton] at hp2
        rcases hp2 with hp2 | hp2
        · exact (h1c p2 hp2).2
        · rw [hp2]
          exact hcnotin
      · intro w0 hw0
        have hw0b : st.inc = some w0 := hw0
        refine ⟨?_, (h2c w0 hw0b).2⟩
        intro p2 hp2
        simp only [List.mem_append, List.mem_singleton] at hp2
        rcases hp2 with hp2 | hp2
        · exact (h2 w0 hw0b).1 p2 hp2
        · rw [hp2]
          exact fun hcontra => (h2c w0 hw0b).1 hcontra.symm
    · rw [hstep] at hw hp
      refine ih _ ?_ ?_ hndrest w hw p hp
      · intro p2 hp2
        simp only [List.mem_append] at hp2
        rcases hp2 with hp2 | hp2
        · exact (h1c p2 hp2).2
        · rcases hinc : st.inc with _ | o
          · rw [hinc] at hp2
            simp at hp2
          · rw [hinc] at hp2
            simp only [List.mem_singleton] at hp2
            rw [hp2]
            exact (h2c o hinc).2
      · intro w0 hw0
        have hw0c : c.rider = w0 := by simpa using hw0
        subst hw0c
        refine ⟨?_, hcnotin⟩
        intro p2 hp2
        simp only [List.mem_append] at hp2
        rcases hp2 with hp2 | hp2
        · exact (h1c p2 hp2).1
        · rcases hinc : st.inc with _ | o
          · rw [hinc] at hp2
            simp at hp2
          · rw [hinc] at hp2
            simp only [List.mem_singleton] at hp2
            rw [hp2]
            exact fun hcontra => (h2c o hinc).1 hcontra

/-! Claim theorems. -/

/-- Claim C5: deterministic tie-break.  In integrated_one's candidate
evaluation loop a candidate replaces the incumbent only when its score is
strictly greater (an exact tie leaves the incumbent and rejects the candidate
with `low_score`), so of two candidates with identical computed scores the
first-evaluated one is selected.  The third conjunct is the same retention
property for timepass's variant of the loop. -/
theorem c5_deterministic_tie_break :
    (∀ (meta : ZoneMeta) (st : SelState) (c : Cand) (s : ℚ),
      IntegratedOne.eligScore meta c = some s → s ≤ st.best →
      IntegratedOne.scanRider meta st c =
        { st with rej := st.rej ++ [(c.rider.id, Reason.low_score)] }) ∧
    (∀ (meta : ZoneMeta) (c1 c2 : Cand) (s : ℚ),
      IntegratedOne.eligScore meta c1 = some s →
      IntegratedOne.eligScore meta c2 = some s →
      -1 < s →
      (IntegratedOne.selectBest meta [c1, c2]).inc = some c1.rider) ∧
    (∀ (meta : ZoneMeta) (st : SelState) (c : Cand) (s : ℚ),
      Timepass.eligScore meta c = some s → s ≤ st.best →
      (Timepass.scanRider meta st c).inc = st.inc) := by
  refine ⟨?_, ?_, ?_⟩
  · intro meta st c s hs hle
    rw [IntegratedOne.scanRider_eligScore meta st c s hs, if_neg (not_lt.mpr hle)]
  · intro meta c1 c2 s h1 h2 hgt
    have e1 : IntegratedOne.scanRider meta initState c1 =
        { best := s, inc := some c1.rider, rej := [] } := by
      rw [IntegratedOne.scanRider_eligScore meta initState c1 s h1,
        if_pos (show initState.best < s from hgt)]
      rfl
    have e2 : IntegratedOne.scanRider meta
        { best := s, inc := some c1.rider, rej := [] } c2 =
        { best := s, inc := some c1.rider, rej := [(c2.rider.id, Reason.low_score)] } := by
      rw [IntegratedOne.scanRider_eligScore meta _ c2 s h2, if_neg (lt_irrefl s)]
      rfl
    simp [IntegratedOne.selectBest, e1, e2]
  · intro meta st c s hs hle
    rw [Timepass.scanRiderT_eligScore meta st c s hs, if_neg (not_lt.mpr hle)]

/-- Witness for C5: two concrete candidates with identical scores;
the first-evaluated one is selected. -/
theorem c5_witness :
    IntegratedOne.eligScore metaC5 candC5a = some sC5 ∧
    (IntegratedOne.selectBest metaC5 [candC5a, candC5b]).inc = some vC5a :=
  ⟨rfl, c5_deterministic_tie_break.2.1 metaC5 candC5a candC5b sC5
    rfl rfl
    (by norm_num [sC5, calculate_rider_score, vC5a, pyOrQ, Option.getD_some])⟩

/-- Claim C6 (amended): `calculate_rider_score` on a row of integrated_one's
rider query equals the spec formula with acceptance_rate defaulting to 0 and
avg_delivery_time defaulting to 30 when the performance record is absent —
but, because of Python `or` truthiness, a *present* record whose
avg_delivery_time is 0 is also replaced by 30. -/
theorem c6_score_formula (r : Rider) (ra : RiderAvailability) (rp : RiderPerformance)
    (d : ℚ) :
    (calculate_rider_score (IntegratedOne.mkView r ra none) (some d) = scoreSpec 0 30 d) ∧
    (rp.avg_delivery_time ≠ 0 →
      calculate_rider_score (IntegratedOne.mkView r ra (some rp)) (some d) =
        scoreSpec rp.acceptance_rate rp.avg_delivery_time d) ∧
    (rp.avg_delivery_time = 0 →
      calculate_rider_score (IntegratedOne.mkView r ra (some rp)) (some d) =
        scoreSpec rp.acceptance_rate 30 d) := by
  refine ⟨?_, fun ht => ?_, fun ht => ?_⟩
  · simp only [calculate_rider_score, IntegratedOne.mkView, scoreSpec, Option.map_none',
      Option.getD_none, Option.getD_some]
    rw [pyOrQ_some_default_zero, pyOrQ_some_of_ne 30 30 (by norm_num)]
  · simp only [calculate_rider_score, IntegratedOne.mkView, scoreSpec, Option.map_some',
      Option.getD_some]
    rw [pyOrQ_some_default_zero, pyOrQ_some_of_ne _ _ ht]
  · simp only [calculate_rider_score, IntegratedOne.mkView, scoreSpec, Option.map_some',
      Option.getD_some]
    rw [pyOrQ_some_default_zero, ht, pyOrQ_some_zero]

/-- Counterexample for C6 as stated: a candidate produced by integrated_one's
rider query whose performance record is present with avg_delivery_time = 0;
the code's score differs from the spec formula evaluated at that stored
value (the code silently substitutes 30). -/
theorem c6_counterexample :
    IntegratedOne.get_available_riders dbC6 none =
      [IntegratedOne.mkView riderC6 availC6 (some perfC6)] ∧
    calculate_rider_score (IntegratedOne.mkView riderC6 availC6 (some perfC6)) (some 2) ≠
      scoreSpec (4 / 5) 0 2 := by
  refine ⟨rfl, ?_⟩
  norm_num [calculate_rider_score, IntegratedOne.mkView, scoreSpec, pyOrQ, perfC6,
    Option.getD_some]

/-- Witness for C6 with a present, nonzero performance record: the code's
score equals the spec formula at the stored values. -/
theorem c6_witness :
    perfC6w.avg_delivery_time ≠ 0 ∧
    calculate_rider_score (IntegratedOne.mkView riderC6 availC6 (some perfC6w)) (some 3) =
      scoreSpec perfC6w.acceptance_rate perfC6w.avg_delivery_time 3 :=
  ⟨by decide, (c6_score_formula riderC6 availC6 perfC6w 3).2.1 (by decide)⟩

/-- Claim C7: scoring monotonicity — with acceptance rate and average
delivery time fixed (they live in the rider row), a strictly larger
non-negative distance yields a strictly smaller score. -/
theorem c7_scoring_monotonicity (r : RiderView) (d1 d2 : ℚ)
    (h0 : 0 ≤ d1) (h12 : d1 < d2) :
    calculate_rider_score r (some d2) < calculate_rider_score r (some d1) := by
  simp only [calculate_rider_score, Option.getD_some]
  have h1 : (0 : ℚ) < d1 + 1 := by linarith
  have h2 : d1 + 1 < d2 + 1 := by linarith
  have h3 : (1 : ℚ) / (d2 + 1) < 1 / (d1 + 1) := one_div_lt_one_div_of_lt h1 h2
  linarith

/-- Witness for C7 at the Scenario B distances 2.3 km and 5.0 km. -/
theorem c7_witness :
    (0 : ℚ) ≤ 23 / 10 ∧ (23 / 10 : ℚ) < 5 ∧
    calculate_rider_score viewC7 (some 5) < calculate_rider_score viewC7 (some (23 / 10)) :=
  ⟨by norm_num, by norm_num,
    c7_scoring_monotonicity viewC7 (23 / 10) 5 (by norm_num) (by norm_num)⟩

/-- Claim C1 (amended): when any statement of order_assign's `assign_order`
transaction fails, every write rolls back — the database (and so the order's
`order_status = 0`) is unchanged — but the exception is caught and logged
inside `assign_order` and is NOT surfaced: the function returns normally and
the calling order loop still counts the order as assigned. -/
theorem c1_rollback_swallows_failure (db : OrderAssign.DBA) (c : OrderAssign.OrderCtxA)
    (lat lng : ℚ) (rider_id : Nat) (i : Fin 4)
    (hg : c.geo = some (lat, lng)) (hlat : lat ≠ 0) (hlng : lng ≠ 0)
    (hacc : c.accepted = some rider_id) (hfail : c.txFail = some i) :
    OrderAssign.assign_order db c.order rider_id c.now c.txFail = (db, false) ∧
    OrderAssign.processOrder db c = (db, OrderAssign.OutcomeA.assigned) := by
  constructor
  · rw [hfail]
    rfl
  · simp [OrderAssign.processOrder, hg, hlat, hlng, hacc, hfail, OrderAssign.assign_order]

/-- Counterexample for C1 as stated: Scenario E — the delivery insert
(statement index 2) fails after the order and availability updates.  The
transaction rolls back (database unchanged, `order_status` still 0), but
`assign_order` returns normally: the failure is not surfaced to the caller,
contradicting the claim's "the failure is surfaced to the caller". -/
theorem c1_counterexample :
    OrderAssign.assign_order dbC1 ordC1 7 (20, 14) (some 2) = (dbC1, false) := by decide

/-- Witness for C1: concrete database, order context and failing statement. -/
theorem c1_witness :
    OrderAssign.assign_order dbC1 ctxC1.order 7 ctxC1.now ctxC1.txFail = (dbC1, false) ∧
    OrderAssign.processOrder dbC1 ctxC1 = (dbC1, OrderAssign.OutcomeA.assigned) :=
  c1_rollback_swallows_failure dbC1 ctxC1 1 1 7 2 rfl (by decide) (by decide) rfl rfl

/-- Claim C2 (amended): integrated_one performs no city-wide fallback.  For
an order with a resolved zone, when the zone-restricted candidate query
returns the empty list the order is immediately counted not-assigned
(`no_riders`) with no second, unrestricted query — regardless of whether
city-wide eligible candidates exist. -/
theorem c2_no_city_wide_fallback (db : DB) (ctx : IntegratedOne.OrderCtx)
    (g : ℚ × ℚ) (z : Nat) (meta : ZoneMeta)
    (hg : ctx.geo = some g) (hz : ctx.zone = some z) (hz0 : z ≠ 0)
    (hm : ctx.meta = some meta) (hw : ctx.within = true)
    (he : IntegratedOne.get_available_riders db (some z) = []) :
    IntegratedOne.processOrder db ctx =
      (db, IntegratedOne.OrderResult.not_assigned IntegratedOne.NAReason.no_riders, []) := by
  simp [IntegratedOne.processOrder, hg, hz, hz0, hm, hw, he]

/-- Counterexample for C2 as stated: a state with zero zone-covering
candidates for zone 5 but one otherwise-eligible candidate city-wide; the
order with resolved zone 5 ends not-assigned (`no_riders`) — no city-wide
re-run happens and the candidate is not used. -/
theorem c2_counterexample :
    IntegratedOne.get_available_riders dbC2 none ≠ [] ∧
    IntegratedOne.processOrder dbC2 ctxC2 =
      (dbC2, IntegratedOne.OrderResult.not_assigned IntegratedOne.NAReason.no_riders, []) :=
  ⟨by decide, by decide⟩

/-- Witness for C2 at the concrete state. -/
theorem c2_witness :
    IntegratedOne.processOrder dbC2 ctxC2 =
      (dbC2, IntegratedOne.OrderResult.not_assigned IntegratedOne.NAReason.no_riders, []) :=
  c2_no_city_wide_fallback dbC2 ctxC2 (1, 1) 5 metaC2 rfl rfl (by decide) rfl rfl (by decide)

/-- Claim C3 (amended): there is no great-circle fallback.  A candidate whose
routing call fails is rejected with reason `distance_eta_unavailable`, and
when routing fails for every candidate (in particular for the only candidate)
no courier is selected and the order ends the pass not assigned. -/
theorem c3_routing_failure_no_fallback :
    (∀ (meta : ZoneMeta) (cs : List Cand),
      (∀ c ∈ cs, c.routing = none) →
      IntegratedOne.selectBest meta cs =
        { best := -1, inc := none,
          rej := cs.map (fun c => (c.rider.id, Reason.distance_eta_unavailable)) }) ∧
    (∀ (db : DB) (ctx : IntegratedOne.OrderCtx) (g : ℚ × ℚ) (z : Nat) (meta : ZoneMeta),
      ctx.geo = some g → ctx.zone = some z → z ≠ 0 → ctx.meta = some meta →
      ctx.within = true →
      IntegratedOne.get_available_riders db (some z) ≠ [] →
      (∀ v, ctx.routing v = none) →
      (IntegratedOne.processOrder db ctx).2.1 =
        IntegratedOne.OrderResult.not_assigned IntegratedOne.NAReason.no_rider_selected) := by
  constructor
  · intro meta cs hall
    have h := IntegratedOne.foldl_scanRider_all_unavailable meta cs initState hall
    rw [IntegratedOne.selectBest, h]
    rfl
  · intro db ctx g z meta hg hz hz0 hm hw hne hall
    have hemp : (IntegratedOne.get_available_riders db (some z)).isEmpty = false := by
      rcases hq : IntegratedOne.get_available_riders db (some z) with _ | ⟨v, rest⟩
      · exact absurd hq hne
      · rfl
    have hfold := IntegratedOne.foldl_scanRider_all_unavailable meta
      ((IntegratedOne.get_available_riders db (some z)).map
        (fun v => ({ rider := v, routing := ctx.routing v } : Cand)))
      initState
      (by
        intro c hc
        simp only [List.mem_map] at hc
        obtain ⟨v, _, rfl⟩ := hc
        exact hall v)
    have hfold2 : List.foldl (IntegratedOne.scanRider meta) initState
        ((IntegratedOne.get_available_riders db (some z)).map
          (fun v => ({ rider := v, routing := ctx.routing v } : Cand))) =
        { best := -1, inc := none,
          rej := ((IntegratedOne.get_available_riders db (some z)).map
            (fun v => ({ rider := v, routing := ctx.routing v } : Cand))).map
              (fun c => (c.rider.id, Reason.distance_eta_unavailable)) } := by
      rw [hfold]
      rfl
    simp [IntegratedOne.processOrder, hg, hz, hz0, hm, hw, hemp,
      IntegratedOne.selectBest, hfold2]

/-- Counterexample for C3 as stated: routing fails for the only candidate;
the claim says the order is still assigned using a great-circle fallback
distance, but the code rejects the candidate with
`distance_eta_unavailable` and the order ends not assigned. -/
theorem c3_counterexample :
    IntegratedOne.get_available_riders dbC3 (some 5) ≠ [] ∧
    IntegratedOne.processOrder dbC3 ctxC3 =
      (dbC3,
       IntegratedOne.OrderResult.not_assigned IntegratedOne.NAReason.no_rider_selected,
       [(1, Reason.distance_eta_unavailable)]) :=
  ⟨by decide, by decide⟩

/-- Witness for C3 at the concrete state. -/
theorem c3_witness :
    (IntegratedOne.processOrder dbC3 ctxC3).2.1 =
      IntegratedOne.OrderResult.not_assigned IntegratedOne.NAReason.no_rider_selected :=
  c3_routing_failure_no_fallback.2 dbC3 ctxC3 (1, 1) 5 metaC3 rfl rfl (by decide) rfl rfl
    (by decide) (fun _ => rfl)

/-- Claim C8 (amended): an order whose address fails to geocode is excluded
with no writes and processing continues with the remaining orders; in
integrated_one's `process_order_table` it is counted in `not_assigned`, but
in order_assign's `process_order_table` (the variant served by main_api) the
invalid-address `continue` skips both counters, so the order is NOT counted
in the returned not_assigned total. -/
theorem c8_invalid_address_accounting :
    (∀ (db : DB) (ctx : IntegratedOne.OrderCtx) (rest : List IntegratedOne.OrderCtx),
      ctx.geo = none →
      IntegratedOne.process_order_table db (ctx :: rest) =
        ((IntegratedOne.process_order_table db rest).1,
         (IntegratedOne.process_order_table db rest).2.1,
         (IntegratedOne.process_order_table db rest).2.2 + 1)) ∧
    (∀ (db : OrderAssign.DBA) (c : OrderAssign.OrderCtxA)
        (rest : List OrderAssign.OrderCtxA),
      c.geo = none →
      OrderAssign.process_order_table db (c :: rest) =
        OrderAssign.process_order_table db rest) := by
  constructor
  · intro db ctx rest hg
    have hord : IntegratedOne.processOrder db ctx =
        (db, IntegratedOne.OrderResult.not_assigned
          IntegratedOne.NAReason.invalid_address, []) := by
      simp [IntegratedOne.processOrder, hg]
    show IntegratedOne.processPassGo db (ctx :: rest) 0 0 = _
    simp only [IntegratedOne.processPassGo, hord]
    rw [IntegratedOne.processPassGo_shift]
    simp only [Prod.mk.injEq, true_and]
    exact ⟨by omega, by omega⟩
  · intro db c rest hg
    have hord : OrderAssign.processOrder db c = (db, OrderAssign.OutcomeA.skipped) := by
      simp [OrderAssign.processOrder, hg]
    show OrderAssign.processPassGo db (c :: rest) 0 0 = _
    simp only [OrderAssign.processPassGo, hord]
    rfl

/-- Counterexample for C8 as stated: order_assign's pass over a single order
whose geocoding fails returns `not_assigned = 0` — the excluded order is not
counted. -/
theorem c8_counterexample :
    OrderAssign.process_order_table dbC8 [ctxC8] = (dbC8, 0, 0) := by decide

/-- Witness for C8 at concrete states for both engine variants. -/
theorem c8_witness :
    IntegratedOne.process_order_table dbC8i [ctxC8i] =
      ((IntegratedOne.process_order_table dbC8i []).1,
       (IntegratedOne.process_order_table dbC8i []).2.1,
       (IntegratedOne.process_order_table dbC8i []).2.2 + 1) ∧
    OrderAssign.process_order_table dbC8 [ctxC8] =
      OrderAssign.process_order_table dbC8 [] :=
  ⟨c8_invalid_address_accounting.1 dbC8i ctxC8i [] rfl,
   c8_invalid_address_accounting.2 dbC8 ctxC8 [] rfl⟩

/-- Claim C4: capacity invariant.  (1) every row returned by the candidate
query satisfies `active_order_count < max_capacity` — a courier at capacity is
filtered out and so can never be selected; (2) processing one order — whose
only availability mutation is the single increment inside the assignment
commit — preserves `active_order_count ≤ max_capacity` for every courier
(given the schema key: one availability row per courier); (3) the same holds
across a whole `process_order_table` pass. -/
theorem c4_capacity_invariant :
    (∀ (db : DB) (z : Option Nat) (v : RiderView),
      v ∈ IntegratedOne.get_available_riders db z →
      v.active_order_count < v.max_capacity) ∧
    (∀ (db : DB) (ctx : IntegratedOne.OrderCtx),
      (db.availability.map (fun ra => ra.rider_id)).Nodup →
      (∀ ra ∈ db.availability, ra.active_order_count ≤ ra.max_capacity) →
      ∀ ra2 ∈ (IntegratedOne.processOrder db ctx).1.availability,
        ra2.active_order_count ≤ ra2.max_capacity) ∧
    (∀ (ctxs : List IntegratedOne.OrderCtx) (db : DB),
      (db.availability.map (fun ra => ra.rider_id)).Nodup →
      (∀ ra ∈ db.availability, ra.active_order_count ≤ ra.max_capacity) →
      ∀ ra2 ∈ (IntegratedOne.process_order_table db ctxs).1.availability,
        ra2.active_order_count ≤ ra2.max_capacity) := by
  refine ⟨?_, ?_, ?_⟩
  · intro db z v hv
    exact availablePred_lt (IntegratedOne.mem_get_available_riders hv).2
  · intro db ctx hnd hb
    exact IntegratedOne.processOrder_availability db ctx hnd hb
  · intro ctxs
    induction ctxs with
    | nil =>
      intro db hnd hb ra2 h2
      exact hb ra2 h2
    | cons ctx rest ih =>
      intro db hnd hb ra2 h2
      rw [IntegratedOne.process_order_table_cons_db] at h2
      refine ih (IntegratedOne.processOrder db ctx).1 ?_ ?_ ra2 h2
      · rw [IntegratedOne.processOrder_availability_ids]
        exact hnd
      · exact IntegratedOne.processOrder_availability db ctx hnd hb

/-- Witness for C4: a concrete queried candidate has headroom. -/
theorem c4_witness :
    IntegratedOne.mkView riderC4 availC4 none ∈
      IntegratedOne.get_available_riders dbC4 none ∧
    (IntegratedOne.mkView riderC4 availC4 none).active_order_count <
      (IntegratedOne.mkView riderC4 availC4 none).max_capacity :=
  ⟨by decide,
   c4_capacity_invariant.1 dbC4 none (IntegratedOne.mkView riderC4 availC4 none) (by decide)⟩

/-- Claim C9 (amended): `load_zones` keeps exactly the rows whose geometry
parses into at least 3 points (unparseable rows and rows with fewer than 3
points are dropped, and the function never raises); a polygon failing the
validity check is replaced by its zero-distance buffer, and the zone is then
kept unconditionally — there is no re-check after the repair, so a zone whose
polygon is still invalid after the repair is NOT dropped. -/
theorem c9_zone_repair_unchecked :
    (∀ (isValid : Poly → Bool) (buffer0 : Poly → Poly) (rows : List ZoneRow) (z : ZoneRec),
      z ∈ IntegratedOne.load_zones isValid buffer0 rows →
      ∃ row ∈ rows, ∃ pts, row.parsed = some pts ∧ 3 ≤ pts.length ∧
        z = { id := row.id, title := row.title,
              polygon := if isValid (Poly.mk pts) = false then buffer0 (Poly.mk pts)
                         else Poly.mk pts }) ∧
    (∀ (isValid : Poly → Bool) (buffer0 : Poly → Poly) (rows : List ZoneRow)
        (row : ZoneRow) (pts : List (ℚ × ℚ)),
      row ∈ rows → row.parsed = some pts → 3 ≤ pts.length →
      ({ id := row.id, title := row.title,
         polygon := if isValid (Poly.mk pts) = false then buffer0 (Poly.mk pts)
                    else Poly.mk pts } : ZoneRec) ∈
        IntegratedOne.load_zones isValid buffer0 rows) := by
  constructor
  · intro isValid buffer0 rows z hz
    simp only [IntegratedOne.load_zones, List.mem_filterMap] at hz
    obtain ⟨row, hrow, hsome⟩ := hz
    refine ⟨row, hrow, ?_⟩
    rcases hp : row.parsed with _ | pts
    · simp [IntegratedOne.loadZoneRow, hp] at hsome
    · simp only [IntegratedOne.loadZoneRow, hp] at hsome
      by_cases hlen : pts.length < 3
      · rw [if_pos hlen] at hsome
        cases hsome
      · rw [if_neg hlen] at hsome
        refine ⟨pts, rfl, by omega, ?_⟩
        have := Option.some.inj hsome
        exact this.symm
  · intro isValid buffer0 rows row pts hrow hp hlen
    simp only [IntegratedOne.load_zones, List.mem_filterMap]
    refine ⟨row, hrow, ?_⟩
    simp only [IntegratedOne.loadZoneRow, hp]
    rw [if_neg (by omega)]

/-- Counterexample for C9 as stated: with a repair that does not restore
validity (identity buffer, validity check constantly false), `load_zones`
still keeps the zone — the still-invalid polygon is appended without being
re-checked, contradicting "a zone whose polygon is still invalid after that
repair is dropped". -/
theorem c9_counterexample :
    IntegratedOne.load_zones (fun _ => false) (fun p => p) [rowC9] =
      [{ id := 9, title := "", polygon := Poly.mk [(0, 0), (1, 0), (0, 1)] }] ∧
    (fun _ => false : Poly → Bool) (Poly.mk [(0, 0), (1, 0), (0, 1)]) = false :=
  ⟨by decide, rfl⟩

/-- Witness for C9: a parseable 3-point zone row is kept. -/
theorem c9_witness :
    rowC9 ∈ [rowC9] ∧
    ({ id := 9, title := "",
       polygon := if (fun _ => true : Poly → Bool) (Poly.mk [(0, 0), (1, 0), (0, 1)]) = false
                  then (fun p => p : Poly → Poly) (Poly.mk [(0, 0), (1, 0), (0, 1)])
                  else Poly.mk [(0, 0), (1, 0), (0, 1)] } : ZoneRec) ∈
      IntegratedOne.load_zones (fun _ => true) (fun p => p) [rowC9] :=
  ⟨by decide,
   c9_zone_repair_unchecked.2 (fun _ => true) (fun p => p) [rowC9] rowC9
     [(0, 0), (1, 0), (0, 1)] (by decide) rfl (by decide)⟩

/-- Claim C10 (amended): in integrated_one, the rejection-logging loop of an
assigned order skips every pair carrying the winner's rider id, so no logged
rejection names the assigned courier.  In timepass, which logs all collected
pairs with no winner guard, the same holds only when the candidate rows carry
pairwise-distinct rider ids; with duplicate rows for one rider (possible via
the LEFT JOIN on multi-row performance data) it fails — see the
counterexample. -/
theorem c10_winner_not_rejected :
    (∀ (db : DB) (ctx : IntegratedOne.OrderCtx) (db2 : DB) (w : Nat) (s : ℚ) (z : Nat)
        (rej : List (Nat × Reason)),
      IntegratedOne.processOrder db ctx =
        (db2, IntegratedOne.OrderResult.assigned w s z, rej) →
      ∀ p ∈ rej, p.1 ≠ w) ∧
    (∀ (meta : ZoneMeta) (cs : List Cand) (w : RiderView),
      (cs.map (fun c2 => c2.rider.id)).Nodup →
      (Timepass.selectBest meta cs).inc = some w →
      ∀ p ∈ Timepass.loggedRejections meta cs, p.1 ≠ w.id) := by
  constructor
  · intro db ctx db2 w s z rej heq p hp
    rcases hgeo : ctx.geo with _ | g
    · simp [IntegratedOne.processOrder, hgeo] at heq
    · rcases hz : ctx.zone with _ | zid
      · simp [IntegratedOne.processOrder, hgeo, hz] at heq
      · by_cases hz0 : zid = 0
        · simp [IntegratedOne.processOrder, hgeo, hz, hz0] at heq
        · rcases hm : ctx.meta with _ | meta
          · simp [IntegratedOne.processOrder, hgeo, hz, hz0, hm] at heq
          · by_cases hw : ctx.within = false
            · simp [IntegratedOne.processOrder, hgeo, hz, hz0, hm, hw] at heq
            · by_cases hemp : (IntegratedOne.get_available_riders db (some zid)).isEmpty
              · simp [IntegratedOne.processOrder, hgeo, hz, hz0, hm, hw, hemp] at heq
              · rcases hinc : (IntegratedOne.selectBest meta
                    ((IntegratedOne.get_available_riders db (some zid)).map
                      (fun v => ({ rider := v, routing := ctx.routing v } : Cand)))).inc
                  with _ | w0
                · simp [IntegratedOne.processOrder, hgeo, hz, hz0, hm, hw, hemp, hinc]
                    at heq
                · have hstep : IntegratedOne.processOrder db ctx =
                      (IntegratedOne.assign_order db ctx.order_id w0.id
                        (IntegratedOne.selectBest meta
                          ((IntegratedOne.get_available_riders db (some zid)).map
                            (fun v => ({ rider := v, routing := ctx.routing v } : Cand)))).best
                        zid,
                       IntegratedOne.OrderResult.assigned w0.id
                        (IntegratedOne.selectBest meta
                          ((IntegratedOne.get_available_riders db (some zid)).map
                            (fun v => ({ rider := v, routing := ctx.routing v } : Cand)))).best
                        zid,
                       (IntegratedOne.selectBest meta
                          ((IntegratedOne.get_available_riders db (some zid)).map
                            (fun v => ({ rider := v, routing := ctx.routing v } : Cand)))).rej.filter
                         (fun p => decide (p.1 ≠ w0.id))) := by
                    simp [IntegratedOne.processOrder, hgeo, hz, hz0, hm, hw, hemp, hinc]
                  have hcomb := hstep.symm.trans heq
                  have h21 := congrArg (fun t => t.2.1) hcomb
                  have h22 := congrArg (fun t => t.2.2) hcomb
                  simp only at h21 h22
                  injection h21 with hwid hbest hzid
                  rw [← h22] at hp
                  simp only [List.mem_filter, decide_eq_true_eq] at hp
                  rw [← hwid]
                  exact hp.2
  · intro meta cs w hnd hw p hp
    refine Timepass.foldl_scanRider_winner meta cs initState ?_ ?_ hnd w hw p hp
    · intro p2 hp2
      simp [initState] at hp2
    · intro w0 hw0
      simp [initState] at hw0

/-- Counterexample for C10 as stated: timepass's rider query returns two rows
for rider 7 (two performance rows under the LEFT JOIN); the lower-scoring row
becomes the incumbent, is replaced by the higher-scoring row of the same
rider, and is recorded as `(7, low_score)`.  The order is assigned to rider 7
while a rejection pairing the order with rider 7 is logged — timepass's
logging loop has no winner guard. -/
theorem c10_counterexample :
    (Timepass.selectBest metaC10 candsC10).inc = some vC10B ∧
    vC10B.id = 7 ∧
    (7, Reason.low_score) ∈ Timepass.loggedRejections metaC10 candsC10 := by
  have eA : Timepass.eligScore metaC10 candC10A =
      some (calculate_rider_score vC10A (some 1)) := rfl
  have eB : Timepass.eligScore metaC10 candC10B =
      some (calculate_rider_score vC10B (some 1)) := rfl
  have hlt1 : initState.best < calculate_rider_score vC10A (some 1) := by
    norm_num [initState, calculate_rider_score, vC10A, Timepass.mkView, perfC10a,
      pyOrQ, Option.getD_some]
  have s1 : Timepass.scanRider metaC10 initState candC10A = stC10mid := by
    rw [Timepass.scanRiderT_eligScore metaC10 initState candC10A _ eA, if_pos hlt1]
    rfl
  have hlt2 : stC10mid.best < calculate_rider_score vC10B (some 1) := by
    norm_num [stC10mid, calculate_rider_score, vC10A, vC10B, Timepass.mkView, perfC10a,
      perfC10b, pyOrQ, Option.getD_some]
  have s2 : Timepass.scanRider metaC10 stC10mid candC10B = stC10fin := by
    rw [Timepass.scanRiderT_eligScore metaC10 stC10mid candC10B _ eB, if_pos hlt2]
    rfl
  have hsel : Timepass.selectBest metaC10 candsC10 = stC10fin := by
    show List.foldl (Timepass.scanRider metaC10) initState candsC10 = _
    rw [show candsC10 = [candC10A, candC10B] from rfl, List.foldl_cons, s1,
      List.foldl_cons, s2, List.foldl_nil]
  refine ⟨by rw [hsel]; rfl, rfl, ?_⟩
  simp only [Timepass.loggedRejections, hsel, stC10fin]
  exact List.mem_singleton.mpr rfl

/-- Witness for C10: two candidates with distinct rider ids; the logged
low-score rejection names a courier different from the winner. -/
theorem c10_witness :
    ((3 : Nat), Reason.low_score).1 ≠ vC10b.id := by
  have eA : Timepass.eligScore metaC10
      ({ rider := vC10a, routing := some (some 1, some 20) } : Cand) =
      some (calculate_rider_score vC10a (some 1)) := rfl
  have eB : Timepass.eligScore metaC10
      ({ rider := vC10b, routing := some (some 1, some 20) } : Cand) =
      some (calculate_rider_score vC10b (some 1)) := rfl
  have hlt1 : initState.best < calculate_rider_score vC10a (some 1) := by
    norm_num [initState, calculate_rider_score, vC10a, pyOrQ, Option.getD_some]
  have s1 : Timepass.scanRider metaC10 initState
      ({ rider := vC10a, routing := some (some 1, some 20) } : Cand) = stC10wmid := by
    rw [Timepass.scanRiderT_eligScore metaC10 initState _ _ eA, if_pos hlt1]
    rfl
  have hlt2 : stC10wmid.best < calculate_rider_score vC10b (some 1) := by
    norm_num [stC10wmid, calculate_rider_score, vC10a, vC10b, pyOrQ, Option.getD_some]
  have s2 : Timepass.scanRider metaC10 stC10wmid
      ({ rider := vC10b, routing := some (some 1, some 20) } : Cand) = stC10wfin := by
    rw [Timepass.scanRiderT_eligScore metaC10 stC10wmid _ _ eB, if_pos hlt2]
    rfl
  have hsel : Timepass.selectBest metaC10 csC10w = stC10wfin := by
    show List.foldl (Timepass.scanRider metaC10) initState csC10w = _
    rw [show csC10w = [{ rider := vC10a, routing := some (some 1, some 20) },
        { rider := vC10b, routing := some (some 1, some 20) }] from rfl,
      List.foldl_cons, s1, List.foldl_cons, s2, List.foldl_nil]
  exact c10_winner_not_rejected.2 metaC10 csC10w vC10b (by decide)
    (by rw [hsel]; rfl) ((3 : Nat), Reason.low_score)
    (by simp only [Timepass.loggedRejections, hsel, stC10wfin]
        exact List.mem_singleton.mpr rfl)

end MealMover
